import Mathlib

/-!
Shallow embedding of `src/market_data_service.py` (smartAPI market data
gateway): broker-response handling of the `AngelOneAuth` session manager
and broker-client methods, the per-subscriber websocket poll loop, and the
pull-query endpoint over the optional cache store.

Broker responses are modelled as parsed-JSON values plus the two transport
failure modes visible to the code (a raised network error from `requests`,
and a body that is not JSON, which makes `response.json()` raise).  Python
statements that can raise are modelled in an explicit exception channel
`PyOutcome`; each method's `try/except` block is embedded as written, so
"never raises" is a theorem about the outer handler, not an artifact of
totality.
-/

namespace SmartAPI

/-- Parsed JSON value, as produced by `response.json()`.  Numbers are kept
as decimal literals `m / 10 ^ e` (mantissa and decimal-exponent), which is
how they matter to this program: truthiness and printing. -/
inductive JVal where
  | null : JVal
  | boolean : Bool → JVal
  | num : Int → Nat → JVal
  | str : String → JVal
  | arr : List JVal → JVal
  | obj : List (String × JVal) → JVal
deriving Repr

/-- Association-list lookup for JSON object fields (first match wins, as in
a Python dict where keys are unique anyway). -/
def jLookup : List (String × JVal) → String → Option JVal
  | [], _ => none
  | (k, v) :: rest, key => if k = key then some v else jLookup rest key

/-- Python truthiness of a parsed-JSON value: `None`, `False`, zero, and
empty strings, lists and dicts are falsy. -/
def truthy : JVal → Bool
  | .null => false
  | .boolean b => b
  | .num m _ => m != 0
  | .str s => !s.isEmpty
  | .arr xs => !xs.isEmpty
  | .obj fs => !fs.isEmpty

/-- Kinds of Python exception the embedded code can raise. -/
inductive PyExn where
  | netError
  | jsonError
  | keyError
  | typeError
  | attrError
  | indexError
deriving Repr, DecidableEq

/-- Result of running a Python block: either a returned value or an
exception propagating out of it. -/
inductive PyOutcome (α : Type) where
  | ret : α → PyOutcome α
  | raised : PyExn → PyOutcome α
deriving Repr

/-- Python `try ... except Exception: handler` around a block. -/
def pyCatch {α : Type} (body : PyOutcome α) (handler : PyExn → α) : α :=
  match body with
  | .ret v => v
  | .raised e => handler e

/-- Python subscript `d["k"]` on a parsed-JSON value: `TypeError` unless the
value is a dict, `KeyError` when the key is missing. -/
def pyIndex : JVal → String → PyOutcome JVal
  | .obj fs, k =>
    match jLookup fs k with
    | some v => .ret v
    | none => .raised .keyError
  | _, _ => .raised .typeError

/-- Python `d.get(k)`: `AttributeError` unless the value is a dict; a
missing key yields `None`. -/
def pyGet : JVal → String → PyOutcome JVal
  | .obj fs, k => .ret ((jLookup fs k).getD .null)
  | _, _ => .raised .attrError

/-- Python subscript `xs[i]` on a parsed-JSON value with an integer index:
`TypeError` unless the value is a list, `IndexError` when out of range. -/
def pyElem : JVal → Nat → PyOutcome JVal
  | .arr xs, i =>
    match xs[i]? with
    | some v => .ret v
    | none => .raised .indexError
  | _, _ => .raised .typeError

/-- One HTTP exchange with the broker as the code observes it: either the
`requests` call raised (network error), or a response arrived with a status
code and a body (`none` when the body is not JSON, so that
`response.json()` raises). -/
inductive BrokerOutcome where
  | netError : BrokerOutcome
  | response : Nat → Option JVal → BrokerOutcome
deriving Repr

/-- The three session tokens held by `AngelOneAuth` (`jwt_token`,
`refresh_token`, `feed_token`), each `None` until assigned by `login`. -/
structure Session where
  jwt_token : Option JVal := none
  refresh_token : Option JVal := none
  feed_token : Option JVal := none
deriving Repr

/-- Session state right after a successful `__init__`: all tokens `None`. -/
def emptySession : Session := {}

/-- The lookup `session["data"][name]` performed by each token-assignment
line of `login`. -/
def loginField (sess : JVal) (name : String) : PyOutcome JVal :=
  match pyIndex sess "data" with
  | .raised e => .raised e
  | .ret d => pyIndex d name

/-- AngelOneAuth.login: posts credentials, parses the body, and on
HTTP 200 with a truthy `status` flag assigns the three tokens one line at a
time; the whole body sits in `try/except Exception`, which returns `None`
and leaves whatever was already assigned in place.  Returns the new token
state and the method's return value (the session dict on success, `None`
otherwise). -/
def login (s : Session) (r : BrokerOutcome) : Session × Option JVal :=
  match r with
  | .netError => (s, none)
  | .response code obody =>
    match obody with
    | none => (s, none)
    | some sess =>
      if code = 200 then
        match pyGet sess "status" with
        | .raised _ => (s, none)
        | .ret sv =>
          if truthy sv then
            match loginField sess "jwtToken" with
            | .raised _ => (s, none)
            | .ret jt =>
              let s1 : Session := { s with jwt_token := some jt }
              match loginField sess "refreshToken" with
              | .raised _ => (s1, none)
              | .ret rt =>
                let s2 : Session := { s1 with refresh_token := some rt }
                match loginField sess "feedToken" with
                | .raised _ => (s2, none)
                | .ret ft => ({ s2 with feed_token := some ft }, some sess)
          else (s, none)
      else (s, none)

/-- AngelOneAuth.logout: posts the client code, and classifies the response
exactly like the other calls; it never touches the token fields.  The
`try/except` returns `None` on any exception. -/
def logout (s : Session) (r : BrokerOutcome) : Session × Option JVal :=
  match r with
  | .netError => (s, none)
  | .response code obody =>
    match obody with
    | none => (s, none)
    | some result =>
      if code = 200 then
        match pyGet result "status" with
        | .raised _ => (s, none)
        | .ret sv => if truthy sv then (s, some result) else (s, none)
      else (s, none)

/-- Broker-level success as the code tests it: HTTP 200 and a JSON body
whose `status` field is truthy (via `dict.get`). -/
def brokerSuccess : BrokerOutcome → Bool
  | .response code (some body) =>
    code = 200 &&
      (match pyGet body "status" with
       | .ret sv => truthy sv
       | .raised _ => false)
  | _ => false

/-- Lift a raw JSON extraction into the method result type (a successfully
extracted payload is returned, exceptions keep propagating). -/
def retSome : PyOutcome JVal → PyOutcome (Option JVal)
  | .ret v => .ret (some v)
  | .raised e => .raised e

/-- The failure branch shared by the broker-client methods:
`logger.error(f"... {data.get(message, ...)}"); return None`.  The `get`
itself raises when the body is not a dict. -/
def failLog (data : JVal) : PyOutcome (Option JVal) :=
  match pyGet data "message" with
  | .raised e => .raised e
  | .ret _ => .ret none

/-- Try-block of AngelOneAuth.get_ltp_data: on HTTP 200 with a truthy
`status` flag return `data["data"]["fetched"][0]`, otherwise log and
return `None`; any step can raise. -/
def get_ltp_dataTry (r : BrokerOutcome) : PyOutcome (Option JVal) :=
  match r with
  | .netError => .raised .netError
  | .response code obody =>
    match obody with
    | none => .raised .jsonError
    | some data =>
      if code = 200 then
        match pyGet data "status" with
        | .raised e => .raised e
        | .ret sv =>
          if truthy sv then
            match pyIndex data "data" with
            | .raised e => .raised e
            | .ret d =>
              match pyIndex d "fetched" with
              | .raised e => .raised e
              | .ret f => retSome (pyElem f 0)
          else failLog data
      else failLog data

/-- AngelOneAuth.get_ltp_data with its `try/except Exception` handler. -/
def get_ltp_data (r : BrokerOutcome) : PyOutcome (Option JVal) :=
  .ret (pyCatch (get_ltp_dataTry r) (fun _ => none))

/-- Try-block shared verbatim by get_historical_data, place_order,
get_order_book and get_profile: on HTTP 200 with a truthy `status` flag
return `data["data"]`, otherwise log and return `None`. -/
def dataFieldTry (r : BrokerOutcome) : PyOutcome (Option JVal) :=
  match r with
  | .netError => .raised .netError
  | .response code obody =>
    match obody with
    | none => .raised .jsonError
    | some data =>
      if code = 200 then
        match pyGet data "status" with
        | .raised e => .raised e
        | .ret sv =>
          if truthy sv then retSome (pyIndex data "data")
          else failLog data
      else failLog data

/-- AngelOneAuth.get_historical_data with its `try/except` handler. -/
def get_historical_data (r : BrokerOutcome) : PyOutcome (Option JVal) :=
  .ret (pyCatch (dataFieldTry r) (fun _ => none))

/-- AngelOneAuth.place_order with its `try/except` handler; `orderparams`
is the request body posted to the broker and does not influence how the
response is classified. -/
def place_order (orderparams : JVal) (r : BrokerOutcome) : PyOutcome (Option JVal) :=
  let _ := orderparams
  .ret (pyCatch (dataFieldTry r) (fun _ => none))

/-- AngelOneAuth.get_order_book with its `try/except` handler. -/
def get_order_book (r : BrokerOutcome) : PyOutcome (Option JVal) :=
  .ret (pyCatch (dataFieldTry r) (fun _ => none))

/-- AngelOneAuth.get_profile with its `try/except` handler. -/
def get_profile (r : BrokerOutcome) : PyOutcome (Option JVal) :=
  .ret (pyCatch (dataFieldTry r) (fun _ => none))

/-- Decimal rendering of a JSON number literal `m / 10 ^ e`, the way Python
prints the parsed value (for example `2500.5`). -/
def decStr (m : Int) (e : Nat) : String :=
  if e = 0 then toString m
  else
    let n := m.natAbs
    let p := 10 ^ e
    let fracDigits := toString (n % p)
    let pad := String.mk (List.replicate (e - fracDigits.length) '0')
    (if m < 0 then "-" else "") ++ toString (n / p) ++ "." ++ pad ++ fracDigits

mutual

/-- Python `str()` of a parsed-JSON value, as used by
`redis_client.set("market_data", str(market_data))`: dict/list reprs with
single-quoted strings. -/
def pyStr : JVal → String
  | .null => "None"
  | .boolean b => if b then "True" else "False"
  | .num m e => decStr m e
  | .str s => "\x27" ++ s ++ "\x27"
  | .arr xs => "[" ++ String.intercalate ", " (pyStrList xs) ++ "]"
  | .obj fs => "\x7b" ++ String.intercalate ", " (pyStrFields fs) ++ "\x7d"

/-- Renderings of the elements of a parsed-JSON list. -/
def pyStrList : List JVal → List String
  | [] => []
  | v :: vs => pyStr v :: pyStrList vs

/-- Renderings of the key/value entries of a parsed-JSON dict. -/
def pyStrFields : List (String × JVal) → List String
  | [] => []
  | (k, v) :: fs => ("\x27" ++ k ++ "\x27: " ++ pyStr v) :: pyStrFields fs

end
/-- Python truthiness of the value held in an `Optional` variable
(`None` is falsy, otherwise the value's own truthiness decides). -/
def pyTruthyOpt : Option JVal → Bool
  | none => false
  | some v => truthy v

/-- The error marker `{"error": "Failed to fetch market data"}` that the
websocket loop sends on a cycle whose fetch came back falsy. -/
def errorMarker : JVal :=
  .obj [("error", .str "Failed to fetch market data")]

/-- Run the method call `auth_client.get_ltp_data(...)` as the websocket
loop observes it; the handler inside the method means no exception ever
reaches the loop, so the loop sees a plain optional payload. -/
def fetchQuote (r : BrokerOutcome) : Option JVal :=
  match get_ltp_data r with
  | .ret v => v
  | .raised _ => none

/-- One cycle of the `market_data_ws` loop body, given the cache-store
availability flag, the current cache slot and the fetch result: a truthy
payload is written to the cache (when the store is available) and sent;
anything else sends the error marker and leaves the cache alone.  Returns
the new cache slot and the JSON message sent to this subscriber. -/
def wsCycle (redisAvail : Bool) (cache : Option String) :
    Option JVal → Option String × JVal
  | some md =>
    if truthy md then
      ((if redisAvail then some (pyStr md) else cache), md)
    else (cache, errorMarker)
  | none => (cache, errorMarker)

/-- The `market_data_ws` loop over a finite trace of per-cycle fetch
results, threading the cache slot and collecting the messages sent. -/
def wsRun (redisAvail : Bool) (cache : Option String) :
    List (Option JVal) → Option String × List JVal
  | [] => (cache, [])
  | f :: fs =>
    let step := wsCycle redisAvail cache f
    let rest := wsRun redisAvail step.1 fs
    (rest.1, step.2 :: rest.2)

/-- The `market_data_ws` loop over a finite trace of broker responses to
the per-cycle `get_ltp_data("NSE", "RELIANCE-EQ", "738561")` call. -/
def wsSession (redisAvail : Bool) (cache : Option String)
    (rs : List BrokerOutcome) : Option String × List JVal :=
  wsRun redisAvail cache (rs.map fetchQuote)

/-- The message a single loop cycle sends for a given fetch result: the
payload when it is truthy, the error marker otherwise. -/
def wsMsgOf (f : Option JVal) : JVal :=
  if pyTruthyOpt f then (f.getD .null) else errorMarker

/-- Response body of `GET /market_data` (the pull query), given the
cache-store availability flag remembered from startup and the current
cache slot.  A missing or empty cached string renders as the no-data
indicator. -/
def get_market_data (redisAvail : Bool) (cache : Option String) : JVal :=
  if !redisAvail then
    .obj [("data", .str "Redis not available, start WebSocket to fetch live data")]
  else
    match cache with
    | some d =>
      .obj [("data", .str (if d.isEmpty then "No data available" else d))]
    | none => .obj [("data", .str "No data available")]

/-- The four credential environment variables read by
`AngelOneAuth.__init__` (each absent or a string). -/
structure Env where
  api_key : Option String
  user_id : Option String
  mpin : Option String
  otp_token : Option String

/-- Python truthiness of `os.getenv(...)`: absent or empty is falsy. -/
def pyTruthyStr : Option String → Bool
  | none => false
  | some s => !s.isEmpty

/-- The two `ValueError`s `AngelOneAuth.__init__` can raise. -/
inductive ConfigError where
  | missingCredentials
  | invalidOtpToken
deriving Repr, DecidableEq

/-- AngelOneAuth.__init__: requires all four credentials truthy (`not
all([...])` check), then probes the OTP seed with `pyotp.TOTP(...).now()`
— modelled by the oracle `totpOk`, since `pyotp` is an external library —
and on success yields the token state with all three tokens `None`. -/
def angelOneAuthInit (totpOk : String → Bool) (env : Env) :
    Except ConfigError Session :=
  if !(pyTruthyStr env.api_key && pyTruthyStr env.user_id &&
       pyTruthyStr env.mpin && pyTruthyStr env.otp_token) then
    .error .missingCredentials
  else if !(totpOk (env.otp_token.getD "")) then
    .error .invalidOtpToken
  else
    .ok { jwt_token := none, refresh_token := none, feed_token := none }

/-- One broker HTTP request as the code builds it: endpoint path and JSON
body. -/
structure BrokerRequest where
  path : String
  body : JVal
deriving Repr

/-- The request `AngelOneAuth.place_order` posts for given order
parameters. -/
def place_order_request (orderparams : JVal) : BrokerRequest :=
  { path := "/rest/secure/angelbroking/order/v1/placeOrder",
    body := orderparams }

/-- The order-parameter dict built inside the `POST /place_order` handler
(`place_new_order`), which takes no request input. -/
def order_params : JVal :=
  .obj [("variety", .str "NORMAL"),
        ("tradingsymbol", .str "RELIANCE-EQ"),
        ("symboltoken", .str "738561"),
        ("transactiontype", .str "BUY"),
        ("exchange", .str "NSE"),
        ("ordertype", .str "MARKET"),
        ("producttype", .str "INTRADAY"),
        ("duration", .str "DAY"),
        ("quantity", .str "1")]

/-- The broker request submitted by any invocation of `POST /place_order`. -/
def place_new_order_request : BrokerRequest :=
  place_order_request order_params

/-- Response body of `POST /place_order` for a given broker outcome. -/
def place_new_order (r : BrokerOutcome) : JVal :=
  match place_order order_params r with
  | .ret d =>
    if pyTruthyOpt d then .obj [("order", d.getD .null)]
    else .obj [("order", .str "Order placement failed")]
  | .raised _ => .obj [("order", .str "Order placement failed")]

/-- All three session tokens populated. -/
def allTokensSet (s : Session) : Prop :=
  s.jwt_token ≠ none ∧ s.refresh_token ≠ none ∧ s.feed_token ≠ none

/-- All three session tokens absent. -/
def allTokensAbsent (s : Session) : Prop :=
  s.jwt_token = none ∧ s.refresh_token = none ∧ s.feed_token = none

/-- A login response that is broker-successful and whose body carries all
three token fields under `data`, so every token-assignment line of `login`
succeeds. -/
def loginWellFormed (r : BrokerOutcome) : Bool :=
  brokerSuccess r &&
  (match r with
   | .response _ (some b) =>
     (match loginField b "jwtToken", loginField b "refreshToken",
            loginField b "feedToken" with
      | .ret _, .ret _, .ret _ => true
      | _, _, _ => false)
   | _ => false)

/-- A 200 success-flagged login response whose `data` object carries only
`jwtToken` (no refresh or feed token). -/
def rBadLogin : BrokerOutcome :=
  .response 200 (some (.obj [("status", .boolean true),
                             ("data", .obj [("jwtToken", .str "J")])]))

/-- A 200 success-flagged login response whose `data` object carries
`jwtToken` and `refreshToken` but no `feedToken`. -/
def rBadLogin2 : BrokerOutcome :=
  .response 200 (some (.obj [("status", .boolean true),
                             ("data", .obj [("jwtToken", .str "J"),
                                            ("refreshToken", .str "R")])]))

/-- A fully well-formed successful login response body. -/
def goodLoginBody : JVal :=
  .obj [("status", .boolean true),
        ("data", .obj [("jwtToken", .str "J"),
                       ("refreshToken", .str "R"),
                       ("feedToken", .str "F")])]

/-- A fully well-formed successful login response. -/
def goodLoginResp : BrokerOutcome := .response 200 (some goodLoginBody)

/-- Token state after a successful login. -/
def activeSession : Session :=
  { jwt_token := some (.str "J"),
    refresh_token := some (.str "R"),
    feed_token := some (.str "F") }

/-- A 200 success-flagged logout response. -/
def logoutOkResp : BrokerOutcome :=
  .response 200 (some (.obj [("status", .boolean true)]))

/-- The quote payload `{ltp: 2500.5}`. -/
def reliancePayload : JVal := .obj [("ltp", .num 25005 1)]

/-- The mocked broker quote response
`{status: true, data: {fetched: [{ltp: 2500.5}]}}` with HTTP 200. -/
def goodQuoteResp : BrokerOutcome :=
  .response 200 (some (.obj [("status", .boolean true),
                             ("data", .obj [("fetched", .arr [reliancePayload])])]))

/-- Claim C1, counterexample: the broker response `rBadLogin` has HTTP 200
and a truthy success flag, yet `login` run from the fresh state leaves
`refresh_token` and `feed_token` absent while `jwt_token` is populated (and
returns a failure result), so neither arm of the claim holds at this
input. -/
theorem login_partial_on_success_flag :
    brokerSuccess rBadLogin = true ∧
    (login emptySession rBadLogin).1.jwt_token ≠ none ∧
    (login emptySession rBadLogin).1.refresh_token = none ∧
    (login emptySession rBadLogin).1.feed_token = none ∧
    (login emptySession rBadLogin).2 = none := by
  refine ⟨rfl, ?_, rfl, rfl, rfl⟩
  exact Option.some_ne_none _

/-- Claim C1, amended: from the fresh state, `login` populates all three
tokens and returns success exactly when the response is HTTP 200 with a
truthy success flag and a body carrying all three token fields; whenever
HTTP 200 together with the success flag fails to hold it leaves all three
tokens absent and returns failure; and it never raises (it is a total
function into a returned-value result).  A 200 success-flagged response
missing token fields still returns failure, but may leave an initial
segment of the tokens populated. -/
theorem login_classification (r : BrokerOutcome) :
    (loginWellFormed r = true →
      allTokensSet (login emptySession r).1 ∧ (login emptySession r).2.isSome = true) ∧
    (brokerSuccess r = false →
      allTokensAbsent (login emptySession r).1 ∧ (login emptySession r).2 = none) ∧
    ((login emptySession r).2.isSome = loginWellFormed r) := by
  rcases r with _ | ⟨code, obody⟩
  · simp [login, brokerSuccess, loginWellFormed, allTokensAbsent, emptySession]
  · rcases obody with _ | b
    · simp [login, brokerSuccess, loginWellFormed, allTokensAbsent, emptySession]
    · by_cases hc : code = 200
      · subst hc
        rcases hg : pyGet b "status" with sv | e
        · by_cases hs : truthy sv
          · rcases hj : loginField b "jwtToken" with jt | e1
            · rcases hr : loginField b "refreshToken" with rt | e2
              · rcases hf : loginField b "feedToken" with ft | e3
                · simp [login, brokerSuccess, loginWellFormed, allTokensSet,
                        allTokensAbsent, emptySession, hg, hs, hj, hr, hf]
                · simp [login, brokerSuccess, loginWellFormed, allTokensSet,
                        allTokensAbsent, emptySession, hg, hs, hj, hr, hf]
              · simp [login, brokerSuccess, loginWellFormed, allTokensSet,
                      allTokensAbsent, emptySession, hg, hs, hj, hr]
            · simp [login, brokerSuccess, loginWellFormed, allTokensSet,
                    allTokensAbsent, emptySession, hg, hs, hj]
          · simp [login, brokerSuccess, loginWellFormed, allTokensAbsent,
                  emptySession, hg, hs]
        · simp [login, brokerSuccess, loginWellFormed, allTokensAbsent,
                emptySession, hg]
      · simp [login, brokerSuccess, loginWellFormed, allTokensAbsent,
              emptySession, hc]

/-- Claim C1, witness: the amended classification applied to a fully
well-formed success response and to an HTTP 500 response. -/
theorem login_classification_witness :
    allTokensSet (login emptySession goodLoginResp).1 ∧
    (login emptySession goodLoginResp).2.isSome = true ∧
    allTokensAbsent (login emptySession (.response 500 (some goodLoginBody))).1 ∧
    (login emptySession (.response 500 (some goodLoginBody))).2 = none :=
  ⟨((login_classification goodLoginResp).1 rfl).1,
   ((login_classification goodLoginResp).1 rfl).2,
   ((login_classification (.response 500 (some goodLoginBody))).2.1 rfl).1,
   ((login_classification (.response 500 (some goodLoginBody))).2.1 rfl).2⟩

/-- Claim C2, counterexample: a 200 success-flagged response whose body
carries `jwtToken` and `refreshToken` but no `feedToken` leaves the session
partially updated after a single `login` call from the fresh state —
neither all three tokens set nor all three absent. -/
theorem login_partial_update_exists :
    ¬ (allTokensSet (login emptySession rBadLogin2).1 ∨
       allTokensAbsent (login emptySession rBadLogin2).1) := by
  intro h
  rcases h with h | h
  · exact h.2.2 rfl
  · exact Option.noConfusion h.1

/-- Claim C2, amended: after any single `login` call from the fresh state,
either all three tokens are set or all three remain absent — except when
the response is 200 success-flagged but its body lacks some token field,
in which case the tokens assigned before the first missing field remain
set. -/
theorem login_all_or_none_unless_malformed (r : BrokerOutcome) :
    allTokensSet (login emptySession r).1 ∨
    allTokensAbsent (login emptySession r).1 ∨
    (brokerSuccess r = true ∧ loginWellFormed r = false) := by
  rcases r with _ | ⟨code, obody⟩
  · exact Or.inr (Or.inl (by simp [login, allTokensAbsent, emptySession]))
  · rcases obody with _ | b
    · exact Or.inr (Or.inl (by simp [login, allTokensAbsent, emptySession]))
    · by_cases hc : code = 200
      · subst hc
        rcases hg : pyGet b "status" with sv | e
        · by_cases hs : truthy sv
          · rcases hj : loginField b "jwtToken" with jt | e1
            · rcases hr : loginField b "refreshToken" with rt | e2
              · rcases hf : loginField b "feedToken" with ft | e3
                · exact Or.inl (by
                    simp [login, allTokensSet, emptySession, hg, hs, hj, hr, hf])
                · exact Or.inr (Or.inr (by
                    simp [brokerSuccess, loginWellFormed, hg, hs, hj, hr, hf]))
              · exact Or.inr (Or.inr (by
                  simp [brokerSuccess, loginWellFormed, hg, hs, hj, hr]))
            · exact Or.inr (Or.inl (by
                simp [login, allTokensAbsent, emptySession, hg, hs, hj]))
          · exact Or.inr (Or.inl (by
              simp [login, allTokensAbsent, emptySession, hg, hs]))
        · exact Or.inr (Or.inl (by
            simp [login, allTokensAbsent, emptySession, hg]))
      · exact Or.inr (Or.inl (by
          simp [login, allTokensAbsent, emptySession, hc]))

/-- Message of one loop cycle as a function of that cycle's fetch result. -/
lemma wsCycle_snd (ra : Bool) (c : Option String) (f : Option JVal) :
    (wsCycle ra c f).2 = wsMsgOf f := by
  cases f with
  | none => simp [wsCycle, wsMsgOf, pyTruthyOpt]
  | some md => by_cases h : truthy md <;> simp [wsCycle, wsMsgOf, pyTruthyOpt, h]

/-- The messages a loop run sends depend only on the per-cycle fetch
results, not on the threaded cache state. -/
lemma wsRun_snd (ra : Bool) :
    ∀ (fs : List (Option JVal)) (c : Option String),
      (wsRun ra c fs).2 = fs.map wsMsgOf
  | [], _ => rfl
  | f :: fs, c => by simp [wsRun, wsCycle_snd, wsRun_snd ra fs]

/-- Claim C3: over any trace of broker responses, the subscriber receives
exactly one message per cycle, and the message of each cycle is a function
of that cycle's fetch alone — a failed (falsy) fetch sends the error
marker, a successful fetch sends the quote — so one failed fetch neither
closes the connection nor affects any later cycle, and a later successful
fetch resumes normal delivery. -/
theorem ws_messages_per_cycle (ra : Bool) (c : Option String)
    (rs : List BrokerOutcome) :
    (wsSession ra c rs).2 = rs.map (fun r => wsMsgOf (fetchQuote r)) ∧
    wsMsgOf none = errorMarker ∧
    (∀ q : JVal, wsMsgOf (some q) = if truthy q then q else errorMarker) := by
  refine ⟨by simp [wsSession, wsRun_snd], rfl, fun q => ?_⟩
  by_cases h : truthy q <;> simp [wsMsgOf, pyTruthyOpt, h]

/-- A cycle whose fetch result is falsy leaves the cache slot unchanged. -/
lemma wsCycle_fst_falsy (ra : Bool) (c : Option String) (f : Option JVal)
    (h : pyTruthyOpt f = false) : (wsCycle ra c f).1 = c := by
  cases f with
  | none => rfl
  | some md =>
    simp [pyTruthyOpt] at h
    simp [wsCycle, h]

/-- Dropping the falsy-fetch cycles from a trace does not change the final
cache slot of a loop run. -/
lemma wsRun_fst_filter (ra : Bool) :
    ∀ (fs : List (Option JVal)) (c : Option String),
      (wsRun ra c fs).1 = (wsRun ra c (fs.filter pyTruthyOpt)).1
  | [], _ => rfl
  | f :: fs, c => by
    by_cases h : pyTruthyOpt f
    · simp [wsRun, List.filter_cons, h, wsRun_fst_filter ra fs]
    · simp only [Bool.not_eq_true] at h
      simp [wsRun, List.filter_cons, h, wsCycle_fst_falsy ra c f h,
            wsRun_fst_filter ra fs]

/-- Claim C10: a cycle with a failed fetch leaves the cache slot unchanged,
and over a whole run the final cache slot equals that of the run restricted
to the successful cycles — only successful fetches write the cache, so pull
queries keep observing the last successfully fetched quote across failed
cycles. -/
theorem ws_cache_only_successful_writes (ra : Bool) (c : Option String)
    (fs : List (Option JVal)) (rs : List BrokerOutcome) :
    (wsCycle ra c none).1 = c ∧
    (wsRun ra c fs).1 = (wsRun ra c (fs.filter pyTruthyOpt)).1 ∧
    (wsSession ra c rs).1 =
      (wsSession ra c (rs.filter (fun r => pyTruthyOpt (fetchQuote r)))).1 := by
  refine ⟨rfl, wsRun_fst_filter ra fs c, ?_⟩
  rw [wsSession, wsSession, wsRun_fst_filter ra (rs.map fetchQuote) c,
      List.filter_map]
  rfl

/-- Classification of the shared `data["data"]` response shape used by
get_historical_data, place_order, get_order_book and get_profile: with the
handler, a broker failure comes back as `None` and a returned payload
implies broker success. -/
lemma dataField_classify (r : BrokerOutcome) :
    (brokerSuccess r = false → pyCatch (dataFieldTry r) (fun _ => none) = none) ∧
    (∀ x, pyCatch (dataFieldTry r) (fun _ => none) = some x → brokerSuccess r = true) := by
  rcases r with _ | ⟨code, obody⟩
  · simp [dataFieldTry, pyCatch, brokerSuccess]
  · rcases obody with _ | b
    · simp [dataFieldTry, pyCatch, brokerSuccess]
    · by_cases hc : code = 200
      · subst hc
        rcases hg : pyGet b "status" with sv | e
        · by_cases hs : truthy sv
          · rcases hd : pyIndex b "data" with d | e2
            · simp [dataFieldTry, pyCatch, brokerSuccess, retSome, hg, hs, hd]
            · simp [dataFieldTry, pyCatch, brokerSuccess, retSome, hg, hs, hd]
          · rcases hm : pyGet b "message" with m | e2 <;>
              simp [dataFieldTry, pyCatch, brokerSuccess, failLog, hg, hs, hm]
        · simp [dataFieldTry, pyCatch, brokerSuccess, hg]
      · rcases hm : pyGet b "message" with m | e2 <;>
          simp [dataFieldTry, pyCatch, brokerSuccess, failLog, hc, hm]

/-- Classification of get_ltp_data's response handling, as for
dataField_classify. -/
lemma ltp_classify (r : BrokerOutcome) :
    (brokerSuccess r = false → pyCatch (get_ltp_dataTry r) (fun _ => none) = none) ∧
    (∀ x, pyCatch (get_ltp_dataTry r) (fun _ => none) = some x → brokerSuccess r = true) := by
  rcases r with _ | ⟨code, obody⟩
  · simp [get_ltp_dataTry, pyCatch, brokerSuccess]
  · rcases obody with _ | b
    · simp [get_ltp_dataTry, pyCatch, brokerSuccess]
    · by_cases hc : code = 200
      · subst hc
        rcases hg : pyGet b "status" with sv | e
        · by_cases hs : truthy sv
          · rcases hd : pyIndex b "data" with d | e2
            · rcases hf : pyIndex d "fetched" with f | e3
              · rcases he : pyElem f 0 with x0 | e4 <;>
                  simp [get_ltp_dataTry, pyCatch, brokerSuccess, retSome,
                        hg, hs, hd, hf, he]
              · simp [get_ltp_dataTry, pyCatch, brokerSuccess, retSome,
                      hg, hs, hd, hf]
            · simp [get_ltp_dataTry, pyCatch, brokerSuccess, retSome, hg, hs, hd]
          · rcases hm : pyGet b "message" with m | e2 <;>
              simp [get_ltp_dataTry, pyCatch, brokerSuccess, failLog, hg, hs, hm]
        · simp [get_ltp_dataTry, pyCatch, brokerSuccess, hg]
      · rcases hm : pyGet b "message" with m | e2 <;>
          simp [get_ltp_dataTry, pyCatch, brokerSuccess, failLog, hc, hm]

/-- Claim C4: each of the five broker-client operations, on every broker
response or transport error, returns a value (the `except Exception`
handler means no exception ever reaches the caller); on broker failure
every operation returns the absent result; and a returned success payload
implies HTTP 200 with the broker success flag. -/
theorem broker_client_never_raises (p : JVal) (r : BrokerOutcome) :
    (∃ v, get_ltp_data r = .ret v) ∧ (∃ v, get_historical_data r = .ret v) ∧
    (∃ v, place_order p r = .ret v) ∧ (∃ v, get_order_book r = .ret v) ∧
    (∃ v, get_profile r = .ret v) ∧
    (brokerSuccess r = false →
      get_ltp_data r = .ret none ∧ get_historical_data r = .ret none ∧
      place_order p r = .ret none ∧ get_order_book r = .ret none ∧
      get_profile r = .ret none) ∧
    (∀ x, get_ltp_data r = .ret (some x) → brokerSuccess r = true) ∧
    (∀ x, get_historical_data r = .ret (some x) → brokerSuccess r = true) ∧
    (∀ x, place_order p r = .ret (some x) → brokerSuccess r = true) ∧
    (∀ x, get_order_book r = .ret (some x) → brokerSuccess r = true) ∧
    (∀ x, get_profile r = .ret (some x) → brokerSuccess r = true) := by
  refine ⟨⟨_, rfl⟩, ⟨_, rfl⟩, ⟨_, rfl⟩, ⟨_, rfl⟩, ⟨_, rfl⟩, ?_, ?_, ?_, ?_, ?_, ?_⟩
  · intro h
    refine ⟨?_, ?_, ?_, ?_, ?_⟩ <;>
      simp [get_ltp_data, get_historical_data, place_order, get_order_book,
            get_profile, (ltp_classify r).1 h, (dataField_classify r).1 h]
  · intro x hx
    exact (ltp_classify r).2 x (by simpa [get_ltp_data] using hx)
  · intro x hx
    exact (dataField_classify r).2 x (by simpa [get_historical_data] using hx)
  · intro x hx
    exact (dataField_classify r).2 x (by simpa [place_order] using hx)
  · intro x hx
    exact (dataField_classify r).2 x (by simpa [get_order_book] using hx)
  · intro x hx
    exact (dataField_classify r).2 x (by simpa [get_profile] using hx)

/-- Claim C4, witness: the classification applied to a successful quote
response and to an HTTP 500 profile response. -/
theorem broker_client_never_raises_witness :
    get_ltp_data goodQuoteResp = .ret (some reliancePayload) ∧
    brokerSuccess goodQuoteResp = true ∧
    get_profile (.response 500 (some goodLoginBody)) = .ret none := by
  refine ⟨rfl, ?_, ?_⟩
  · exact (broker_client_never_raises order_params goodQuoteResp).2.2.2.2.2.2.1
      reliancePayload rfl
  · exact ((broker_client_never_raises order_params
      (.response 500 (some goodLoginBody))).2.2.2.2.2.1 rfl).2.2.2.2

/-- Claim C5, counterexample: after a 200 success-flagged logout the three
tokens are still populated (the claim says the Session returns to the
absent state), and logout submits and classifies the exchange even when no
session exists. -/
theorem logout_keeps_tokens_counterexample :
    (logout activeSession logoutOkResp).2.isSome = true ∧
    ¬ allTokensAbsent (logout activeSession logoutOkResp).1 ∧
    (logout emptySession logoutOkResp).2.isSome = true := by
  refine ⟨rfl, ?_, rfl⟩
  intro h
  exact Option.noConfusion h.1

/-- Claim C5, amended: `logout` never raises (it is a total function into
a returned result), leaves the token state exactly as it was, behaves
identically whatever the token state (no session-existence check), and
reports success exactly on HTTP 200 with the broker success flag. -/
theorem logout_state_and_result (s t : Session) (r : BrokerOutcome) :
    (logout s r).1 = s ∧ (logout s r).2 = (logout t r).2 ∧
    (logout s r).2.isSome = brokerSuccess r := by
  rcases r with _ | ⟨code, obody⟩
  · simp [logout, brokerSuccess]
  · rcases obody with _ | b
    · simp [logout, brokerSuccess]
    · by_cases hc : code = 200
      · subst hc
        rcases hg : pyGet b "status" with sv | e
        · by_cases hs : truthy sv
          · simp [logout, brokerSuccess, hg, hs]
          · simp [logout, brokerSuccess, hg, hs]
        · simp [logout, brokerSuccess, hg]
      · simp [logout, brokerSuccess, hc]

/-- Claim C6: the pull query always answers with a structured
`{"data": ...}` body — the documented no-data indicator on an empty slot,
and the degraded structured message when the cache store is unavailable —
never an error. -/
theorem pull_query_never_errors (ra : Bool) (c : Option String) :
    (∃ s, get_market_data ra c = .obj [("data", .str s)]) ∧
    get_market_data false c =
      .obj [("data", .str "Redis not available, start WebSocket to fetch live data")] ∧
    get_market_data true none = .obj [("data", .str "No data available")] := by
  refine ⟨?_, rfl, rfl⟩
  cases ra with
  | false => exact ⟨"Redis not available, start WebSocket to fetch live data", rfl⟩
  | true =>
    rcases c with _ | d
    · exact ⟨"No data available", rfl⟩
    · exact ⟨(if d.isEmpty then "No data available" else d), rfl⟩

/-- Claim C7: construction fails with the missing-credentials error when
any one of the four credential fields is absent or empty; with all four
present it fails with the invalid-OTP error when the seed cannot produce a
code; otherwise it succeeds with all three session tokens absent. -/
theorem init_credential_validation (totpOk : String → Bool) (env : Env) :
    (pyTruthyStr env.api_key = false ∨ pyTruthyStr env.user_id = false ∨
     pyTruthyStr env.mpin = false ∨ pyTruthyStr env.otp_token = false →
      angelOneAuthInit totpOk env = .error .missingCredentials) ∧
    (pyTruthyStr env.api_key = true → pyTruthyStr env.user_id = true →
     pyTruthyStr env.mpin = true → pyTruthyStr env.otp_token = true →
     totpOk (env.otp_token.getD "") = false →
      angelOneAuthInit totpOk env = .error .invalidOtpToken) ∧
    (pyTruthyStr env.api_key = true → pyTruthyStr env.user_id = true →
     pyTruthyStr env.mpin = true → pyTruthyStr env.otp_token = true →
     totpOk (env.otp_token.getD "") = true →
      angelOneAuthInit totpOk env = .ok emptySession) ∧
    allTokensAbsent emptySession := by
  refine ⟨?_, ?_, ?_, ⟨rfl, rfl, rfl⟩⟩
  · intro h
    rcases h with h | h | h | h <;> simp [angelOneAuthInit, h]
  · intro h1 h2 h3 h4 h5
    simp [angelOneAuthInit, h1, h2, h3, h4, h5]
  · intro h1 h2 h3 h4 h5
    simp [angelOneAuthInit, h1, h2, h3, h4, h5, emptySession]

/-- Claim C7, witness: the validation applied to an empty API key, an
invalid OTP seed, and a fully valid environment. -/
theorem init_credential_validation_witness :
    angelOneAuthInit (fun _ => true) ⟨some "", some "u", some "p", some "o"⟩ =
      .error .missingCredentials ∧
    angelOneAuthInit (fun _ => false) ⟨some "k", some "u", some "p", some "o"⟩ =
      .error .invalidOtpToken ∧
    angelOneAuthInit (fun _ => true) ⟨some "k", some "u", some "p", some "o"⟩ =
      .ok emptySession := by
  refine ⟨?_, ?_, ?_⟩
  · exact (init_credential_validation (fun _ => true) _).1 (Or.inl rfl)
  · exact (init_credential_validation (fun _ => false) _).2.1 rfl rfl rfl rfl rfl
  · exact (init_credential_validation (fun _ => true) _).2.2.1 rfl rfl rfl rfl rfl

/-- Claim C8: with the broker always answering
`{status: true, data: {fetched: [{ltp: 2500.5}]}}`, a subscriber connected
for three cycles receives three quote messages each carrying
`ltp: 2500.5`, and the subsequent pull query returns the same cached
(stringified) value. -/
theorem end_to_end_three_cycles :
    wsSession true none [goodQuoteResp, goodQuoteResp, goodQuoteResp] =
      (some (pyStr reliancePayload),
       [reliancePayload, reliancePayload, reliancePayload]) ∧
    pyIndex reliancePayload "ltp" = .ret (.num 25005 1) ∧
    get_market_data true
        (wsSession true none [goodQuoteResp, goodQuoteResp, goodQuoteResp]).1 =
      .obj [("data", .str (pyStr reliancePayload))] ∧
    pyStr reliancePayload = "\x7b\x27ltp\x27: 2500.5\x7d" :=
  ⟨rfl, rfl, rfl, rfl⟩

/-- Claim C9: the `POST /place_order` handler takes no request input, and
the broker request it submits is the fixed market-buy parameter set
(NORMAL, RELIANCE-EQ on NSE, BUY, MARKET, INTRADAY, DAY, quantity 1) —
identical across all invocations. -/
theorem place_order_params_fixed :
    place_new_order_request =
      { path := "/rest/secure/angelbroking/order/v1/placeOrder",
        body := .obj [("variety", .str "NORMAL"),
                      ("tradingsymbol", .str "RELIANCE-EQ"),
                      ("symboltoken", .str "738561"),
                      ("transactiontype", .str "BUY"),
                      ("exchange", .str "NSE"),
                      ("ordertype", .str "MARKET"),
                      ("producttype", .str "INTRADAY"),
                      ("duration", .str "DAY"),
                      ("quantity", .str "1")] } ∧
    place_new_order_request.body = order_params :=
  ⟨rfl, rfl⟩

end SmartAPI
